import Mathlib

/-!
Verification of the data-model fragment in `src/models.py`.

The source defines two Python `Enum` classes:

* `NodeType` (lines 16-22): five members, each assigned a lowercase
  snake-case string value.
* `CapabilityType` (lines 24-28): `READ = "read"`, `WRITE = "write"`, and
  then the file ends with the bare name `EXEC` on line 28 with no value
  assigned.  In Python, a bare undefined name inside a class body is
  evaluated as a name lookup and raises `NameError`, so evaluating
  `src/models.py` aborts and the `CapabilityType` class object is never
  created.

We embed the two class bodies as lists of entries (a declared name plus an
optional assigned value), give the Python evaluation of such a body as a
fallible function, and embed `NodeType` itself as an inductive type with
its `.value` projection and the `NodeType(s)` value lookup (which scans
members in definition order and raises `ValueError`, modelled as `none`,
when no member has value `s`).
-/

/-- One entry of a Python `Enum` class body: the declared member name and,
when the source assigns one, its string value.  `value = none` models a
bare name with no assignment (line 28, `EXEC`), which Python evaluates as
a name lookup. -/
structure EnumEntry where
  name : String
  value : Option String
deriving DecidableEq

/-- The class body of `NodeType` (`src/models.py` lines 16-22), entries in
source order. -/
def nodeTypeBody : List EnumEntry :=
  [⟨"PHYSICAL_OBJECT", some "physical_object"⟩,
   ⟨"DATA_PACKET", some "data_packet"⟩,
   ⟨"TRANSPORT_VEHICLE", some "transport_vehicle"⟩,
   ⟨"COMPUTE_NODE", some "compute_node"⟩,
   ⟨"STORAGE_NODE", some "storage_node"⟩]

/-- The class body of `CapabilityType` (`src/models.py` lines 24-28),
entries in source order; the file ends at the bare name `EXEC`, which has
no assigned value. -/
def capabilityTypeBody : List EnumEntry :=
  [⟨"READ", some "read"⟩,
   ⟨"WRITE", some "write"⟩,
   ⟨"EXEC", none⟩]

/-- Python evaluation of an `Enum` class body, top to bottom: each
assignment binds `name` to its value; a bare name with no assignment is an
undefined-name lookup, which raises `NameError` and aborts evaluation, so
the class object is never created.  On success, returns the bindings in
definition order. -/
def evalEnumBody : List EnumEntry → Except String (List (String × String))
  | [] => Except.ok []
  | e :: es =>
    match e.value with
    | some v => (evalEnumBody es).map (fun l => (e.name, v) :: l)
    | none => Except.error ("NameError: name " ++ e.name ++ " is not defined")

/-- The bindings Python makes in the class namespace before evaluation
aborts: assignments are executed one at a time, so every entry before the
first bare name is bound even when a later entry raises. -/
def partialBindings (body : List EnumEntry) : List (String × String) :=
  (body.takeWhile (fun e => e.value.isSome)).filterMap
    (fun e => e.value.map (fun v => (e.name, v)))

/-- The `NodeType` enumeration (`src/models.py` lines 16-22). -/
inductive NodeType where
  | PHYSICAL_OBJECT
  | DATA_PACKET
  | TRANSPORT_VEHICLE
  | COMPUTE_NODE
  | STORAGE_NODE
deriving DecidableEq

/-- The string value assigned to each `NodeType` member
(`src/models.py` lines 18-22). -/
def NodeType.value : NodeType → String
  | .PHYSICAL_OBJECT => "physical_object"
  | .DATA_PACKET => "data_packet"
  | .TRANSPORT_VEHICLE => "transport_vehicle"
  | .COMPUTE_NODE => "compute_node"
  | .STORAGE_NODE => "storage_node"

/-- The members of `NodeType` in definition order. -/
def NodeType.members : List NodeType :=
  [.PHYSICAL_OBJECT, .DATA_PACKET, .TRANSPORT_VEHICLE, .COMPUTE_NODE, .STORAGE_NODE]

/-- The string values of the `NodeType` members, in definition order. -/
def nodeTypeValues : List String :=
  NodeType.members.map NodeType.value

/-- Python value lookup `NodeType(s)`: scan the members in definition
order for one whose value equals `s`; `none` models the `ValueError`
raised when no member matches. -/
def nodeTypeLookup (s : String) : Option NodeType :=
  NodeType.members.find? (fun t => t.value == s)

/-- `beginsWith pre s` is true when the string `s` begins with the string
`pre`, compared character by character. -/
def beginsWith (pre s : String) : Bool :=
  pre.data.isPrefixOf s.data

/-- Every `NodeType` member appears in the member list: the tag set is
closed. -/
theorem nodeType_mem_members (t : NodeType) : t ∈ NodeType.members := by
  cases t <;> simp [NodeType.members]

/-- Value lookup returns `none` exactly on strings that are not among the
member values. -/
theorem nodeTypeLookup_eq_none_iff (s : String) :
    nodeTypeLookup s = none ↔ s ∉ nodeTypeValues := by
  unfold nodeTypeLookup nodeTypeValues
  rw [List.find?_eq_none]
  constructor
  · intro h hmem
    rcases List.mem_map.mp hmem with ⟨t, ht, hv⟩
    exact h t ht (beq_iff_eq.mpr hv)
  · intro h t ht hbeq
    exact h (List.mem_map.mpr ⟨t, ht, beq_iff_eq.mp hbeq⟩)

/-- Claim C2: every `NodeType` member's string value equals its documented
lowercase snake-case tag, and the value set is exactly
physical_object, data_packet, transport_vehicle, compute_node,
storage_node. -/
theorem nodeType_values_as_documented :
    NodeType.PHYSICAL_OBJECT.value = "physical_object" ∧
    NodeType.DATA_PACKET.value = "data_packet" ∧
    NodeType.TRANSPORT_VEHICLE.value = "transport_vehicle" ∧
    NodeType.COMPUTE_NODE.value = "compute_node" ∧
    NodeType.STORAGE_NODE.value = "storage_node" ∧
    nodeTypeValues = ["physical_object", "data_packet", "transport_vehicle",
      "compute_node", "storage_node"] :=
  ⟨rfl, rfl, rfl, rfl, rfl, rfl⟩

/-- Claim C3: `NodeType` has exactly five members, the members are pairwise
distinct, their string values are pairwise distinct, and every `NodeType`
is one of the listed members. -/
theorem nodeType_five_members_distinct :
    NodeType.members.length = 5 ∧ NodeType.members.Nodup ∧
    nodeTypeValues.Nodup ∧ ∀ t : NodeType, t ∈ NodeType.members :=
  ⟨rfl, by decide, by decide, nodeType_mem_members⟩

/-- Claim C8: value lookup round-trips: looking up the string value of any
`NodeType` member returns that member. -/
theorem nodeType_lookup_value_roundtrip :
    ∀ t : NodeType, nodeTypeLookup t.value = some t := by
  intro t
  cases t <;> rfl

/-- Claim C9: value lookup on `NodeType` fails exactly on strings that are
not one of the five member values, and on each of the five member values it
returns the corresponding member. -/
theorem nodeType_lookup_characterization :
    (∀ s : String, nodeTypeLookup s = none ↔ s ∉ nodeTypeValues) ∧
    nodeTypeLookup "physical_object" = some NodeType.PHYSICAL_OBJECT ∧
    nodeTypeLookup "data_packet" = some NodeType.DATA_PACKET ∧
    nodeTypeLookup "transport_vehicle" = some NodeType.TRANSPORT_VEHICLE ∧
    nodeTypeLookup "compute_node" = some NodeType.COMPUTE_NODE ∧
    nodeTypeLookup "storage_node" = some NodeType.STORAGE_NODE :=
  ⟨nodeTypeLookup_eq_none_iff, rfl, rfl, rfl, rfl, rfl⟩

/-- Claim C4 counterexample: the enumerations do have fallible behavior:
value lookup on `NodeType` fails at the input "exec", and evaluating the
`CapabilityType` class body itself fails with a `NameError`. -/
theorem enum_operations_can_fail :
    nodeTypeLookup "exec" = none ∧
    evalEnumBody capabilityTypeBody =
      Except.error "NameError: name EXEC is not defined" :=
  ⟨rfl, rfl⟩

/-- Claim C4 as amended: the enumerations define no custom fallible logic,
and lookup of a member value always succeeds; but value lookup fails
exactly on strings that are not member values, and evaluating the
truncated `CapabilityType` class body fails with a `NameError`. -/
theorem enum_fallibility_characterized :
    (∀ t : NodeType, (nodeTypeLookup t.value).isSome = true) ∧
    (∀ s : String, nodeTypeLookup s = none ↔ s ∉ nodeTypeValues) ∧
    evalEnumBody capabilityTypeBody =
      Except.error "NameError: name EXEC is not defined" :=
  ⟨fun t => by cases t <;> rfl, nodeTypeLookup_eq_none_iff, rfl⟩

/-- Claim C1: evaluating the `CapabilityType` class body raises a
`NameError` at the bare name `EXEC`, and none of the bindings made before
the failure has a value beginning with "exec" — so the code defines no
third member whose string value begins with "exec". -/
theorem capabilityType_no_exec_valued_member :
    evalEnumBody capabilityTypeBody =
      Except.error "NameError: name EXEC is not defined" ∧
    (partialBindings capabilityTypeBody).all
      (fun p => !(beginsWith "exec" p.2)) = true :=
  ⟨rfl, by decide⟩

/-- Claim C5: the `NodeType` class body evaluates once to its five
bindings, but the `CapabilityType` class body fails to evaluate, so the
`CapabilityType` member set is never defined at process start. -/
theorem capabilityType_set_never_defined :
    evalEnumBody nodeTypeBody = Except.ok
      [("PHYSICAL_OBJECT", "physical_object"), ("DATA_PACKET", "data_packet"),
       ("TRANSPORT_VEHICLE", "transport_vehicle"), ("COMPUTE_NODE", "compute_node"),
       ("STORAGE_NODE", "storage_node")] ∧
    evalEnumBody capabilityTypeBody =
      Except.error "NameError: name EXEC is not defined" :=
  ⟨rfl, rfl⟩

/-- Claim C6: the `CapabilityType` class body declares `READ` with value
"read" and `WRITE` with value "write", which are distinct, but its third
declared name `EXEC` has no string value at all. -/
theorem capabilityType_exec_entry_has_no_value :
    capabilityTypeBody.map EnumEntry.value = [some "read", some "write", none] ∧
    (capabilityTypeBody.filterMap EnumEntry.value).Nodup :=
  ⟨rfl, by decide⟩

/-- Claim C7: the `CapabilityType` class body ends with the bare name
`EXEC` with no value assigned, its evaluation fails, the only bindings
made before the failure are `READ` and `WRITE`, and every such binding has
value "read" or "write" — so no `CapabilityType` value beyond `READ` and
`WRITE` is constructible. -/
theorem capabilityType_truncation_consequences :
    capabilityTypeBody.getLast? = some ⟨"EXEC", none⟩ ∧
    evalEnumBody capabilityTypeBody =
      Except.error "NameError: name EXEC is not defined" ∧
    (partialBindings capabilityTypeBody).map Prod.fst = ["READ", "WRITE"] ∧
    (partialBindings capabilityTypeBody).all
      (fun p => p.2 == "read" || p.2 == "write") = true :=
  ⟨rfl, rfl, rfl, rfl⟩
